import Mathlib

/-!
Verification development for the fbmsgr repository: a shallow embedding of
the attachment decoders (attachment.go), the event-stream polling loop and
its helpers (event stream source file), and the FullActionLog pagination
loop (util.go), together with theorems settling the specification claims.
-/

namespace Fbmsgr

/-! ### JSON model

Go passes attachment payloads around as `map[string]interface{}` and decodes
them with `encoding/json`. We model JSON values with an inductive type; Go's
float64 JSON numbers are modelled as `Int` (every payload exercised here
carries integral numbers, and the identifier canonicalization in the source
formats numbers through `int64`). -/

inductive Json where
  | null : Json
  | str : String → Json
  | int : Int → Json
  | bool : Bool → Json
  | arr : List Json → Json
  | obj : List (String × Json) → Json

/-- RawMap models a Go `map[string]interface{}` value: an association list
from keys to JSON values (concrete maps never repeat a key; lookup takes the
first binding). -/
abbrev RawMap := List (String × Json)

/-- Model of Go map lookup `m[k]`. -/
def lookupKey (m : RawMap) (k : String) : Option Json :=
  match m with
  | [] => none
  | (k2, v) :: rest => if k2 = k then some v else lookupKey rest k

/-- Model of Go's `_, ok := m[k]` presence test. -/
def hasKey (m : RawMap) (k : String) : Bool :=
  (lookupKey m k).isSome

/-! Helpers modelling `encoding/json` unmarshalling of one struct field, as
performed by `putJSONIntoObject` (marshal the map, unmarshal into a typed
struct). A missing or null field yields the zero value; a field of the wrong
JSON type makes the unmarshal (and hence the decode function) fail. -/

/-- Unmarshal a `string`-typed struct field. -/
def strField (m : RawMap) (k : String) : Except Unit String :=
  match lookupKey m k with
  | none => .ok ""
  | some .null => .ok ""
  | some (.str s) => .ok s
  | some _ => .error ()

/-- Unmarshal an `int`-typed struct field. -/
def intField (m : RawMap) (k : String) : Except Unit Int :=
  match lookupKey m k with
  | none => .ok 0
  | some .null => .ok 0
  | some (.int n) => .ok n
  | some _ => .error ()

/-- Unmarshal a field targeted at a nested object (a nested struct or a
`map[string]interface{}`): absent and null both give the zero value,
modelled as `Json.null`. -/
def objField (m : RawMap) (k : String) : Except Unit Json :=
  match lookupKey m k with
  | none => .ok .null
  | some .null => .ok .null
  | some (.obj f) => .ok (.obj f)
  | some _ => .error ()

/-- Unmarshal an `interface{}`-typed struct field: captures the raw JSON
value and never fails. -/
def jsonField (m : RawMap) (k : String) : Json :=
  (lookupKey m k).getD .null

/-- View a JSON value as the field list of an object, the way unmarshalling
into a struct does: null behaves as an object with no fields, anything that
is not an object fails. -/
def asObjFields : Json → Except Unit RawMap
  | .null => .ok []
  | .obj f => .ok f
  | _ => .error ()

/-- Unmarshal an `int64`-typed struct field carrying the `,string` option
(the value arrives as a JSON string holding a number). -/
def strIntField (m : RawMap) (k : String) : Except Unit Int :=
  match lookupKey m k with
  | none => .ok 0
  | some .null => .ok 0
  | some (.str s) =>
    match s.toInt? with
    | some n => .ok n
    | none => .error ()
  | some _ => .error ()

/-! ### Identifier canonicalization (util.go) -/

/-- Model of `stripFBIDPrefix` from util.go: turns strings like "fbid:12"
into "12" and leaves other strings unchanged. (Renamed from the source's
identifier for this development.) -/
def stripFBIDTag (s : String) : String :=
  if s.startsWith "fbid:" then s.drop 5 else s

/-- Model of `floatIDToString` from util.go: formats a numeric identifier,
mapping 0 to the empty string. -/
def floatIDToString (id : Int) : String :=
  if id = 0 then "" else toString id

/-- Model of `canonicalFBID` from util.go: converts a string or numeric
JSON value into a textual FBID with no prefix; anything else gives "". -/
def canonicalFBID : Json → String
  | .str s => stripFBIDTag s
  | .int n => floatIDToString n
  | _ => ""

/-! ### Attachment data model (attachment.go) -/

def AudioAttachmentType : String := "audio"
def ImageAttachmentType : String := "photo"
def AnimatedImageAttachmentType : String := "animated_image"
def StickerAttachmentType : String := "sticker"
def FileAttachmentType : String := "file"
def VideoAttachmentType : String := "video"

def blobAudioAttachmentType : String := "MessageAudio"
def blobImageAttachmentType : String := "MessageImage"
def blobAnimatedImageAttachmentType : String := "MessageAnimatedImage"
def blobFileAttachmentType : String := "MessageFile"
def blobVideoAttachmentType : String := "MessageVideo"

structure AudioAttachment where
  name : String
  audioURL : String
deriving DecidableEq

structure ImageAttachment where
  fbid : String
  width : Int
  height : Int
  animated : Bool
  previewURL : String
  previewWidth : Int
  previewHeight : Int
  largePreviewURL : String
  largePreviewWidth : Int
  largePreviewHeight : Int
  thumbnailURL : String
  hiResURL : String
deriving DecidableEq

structure StickerAttachment where
  rawURL : String
  stickerID : Int
  packID : Int
  spriteURI : String
  spriteURI2x : String
  paddedSpriteURI : String
  paddedSpriteURI2x : String
  frameCount : Int
  frameRate : Int
  framesPerRow : Int
  framesPerCol : Int
  width : Int
  height : Int
deriving DecidableEq

structure FileAttachment where
  name : String
  fileURL : String
deriving DecidableEq

structure VideoAttachment where
  fbid : String
  name : String
  videoURL : String
  width : Int
  height : Int
  previewURL : String
  previewWidth : Int
  previewHeight : Int
  largePreviewURL : String
  largePreviewWidth : Int
  largePreviewHeight : Int
  thumbnailURL : String
deriving DecidableEq

/-- Model of `UnknownAttachment`: the type tag and the retained raw
payload. -/
structure UnknownAttachment where
  typ : String
  rawData : RawMap

/-- Model of the `Attachment` interface as a closed tagged union of the
structs implementing it in attachment.go. -/
inductive Attachment where
  | audioAtt : AudioAttachment → Attachment
  | imageAtt : ImageAttachment → Attachment
  | stickerAtt : StickerAttachment → Attachment
  | fileAtt : FileAttachment → Attachment
  | videoAtt : VideoAttachment → Attachment
  | unknownAtt : UnknownAttachment → Attachment

/-- Model of the `imageField` helper struct (uri/width/height). -/
structure ImageField where
  uri : String
  width : Int
  height : Int
deriving DecidableEq

/-- Unmarshal an `imageField`-typed struct field. -/
def imageFieldOf (m : RawMap) (k : String) : Except Unit ImageField := do
  let j ← objField m k
  let f ← asObjFields j
  let uri ← strField f "uri"
  let w ← intField f "width"
  let h ← intField f "height"
  .ok ⟨uri, w, h⟩

/-- Unmarshal a `uriField`-typed struct field. -/
def uriFieldOf (m : RawMap) (k : String) : Except Unit String := do
  let j ← objField m k
  let f ← asObjFields j
  strField f "uri"

/-! ### Attachment decoders (attachment.go) -/

/-- Model of `decodeBlobAudioAttachment`. -/
def decodeBlobAudioAttachment (raw : Json) : Except Unit AudioAttachment := do
  let m ← asObjFields raw
  let tn ← strField m "__typename"
  let name ← strField m "filename"
  let url ← strField m "playable_url"
  if tn = blobAudioAttachmentType then
    .ok ⟨name, url⟩
  else
    .error ()

/-- Model of `decodeAudioAttachment` (inline envelope: digs out
`mercury.blob_attachment` and delegates to the blob decoder). -/
def decodeAudioAttachment (raw : RawMap) : Except Unit AudioAttachment := do
  let mercury ← objField raw "mercury"
  let m ← asObjFields mercury
  let blob ← objField m "blob_attachment"
  decodeBlobAudioAttachment blob

/-- Model of the regular expression `^([0-9]*),([0-9]*)$` applied to the
inline image `dimensions` string, with `strconv.Atoi` whose error is
discarded (an empty digit group parses to 0). -/
def parseDims (s : String) : Option (Int × Int) :=
  match s.splitOn "," with
  | [a, b] =>
    if (a.toList.all Char.isDigit) ∧ (b.toList.all Char.isDigit) then
      some ((a.toNat?.getD 0 : Nat), (b.toNat?.getD 0 : Nat))
    else
      none
  | _ => none

/-- Model of `decodeImageAttachment` (inline envelope). -/
def decodeImageAttachment (raw : RawMap) : Except Unit ImageAttachment := do
  let mercury ← objField raw "mercury"
  let m ← asObjFields mercury
  let attachType ← strField m "attach_type"
  let meta ← objField m "metadata"
  let metaM ← asObjFields meta
  let fbid := jsonField metaM "fbid"
  let dims ← strField metaM "dimensions"
  let previewURL ← strField m "preview_url"
  let previewWidth ← intField m "preview_width"
  let previewHeight ← intField m "preview_height"
  let largePreviewURL ← strField m "large_preview_url"
  let largePreviewWidth ← intField m "large_preview_width"
  let largePreviewHeight ← intField m "large_preview_height"
  let thumbnailURL ← strField m "thumbnail_url"
  let hiResURL ← strField m "hires_url"
  if attachType = ImageAttachmentType ∨ attachType = AnimatedImageAttachmentType then
    match parseDims dims with
    | none => .error ()
    | some (w, h) =>
      .ok ⟨canonicalFBID fbid, w, h,
        attachType = AnimatedImageAttachmentType,
        previewURL, previewWidth, previewHeight,
        largePreviewURL, largePreviewWidth, largePreviewHeight,
        thumbnailURL, hiResURL⟩
  else
    .error ()

/-- Model of `decodeBlobImageAttachment`. Note: the source assigns
`OrigDimensions.X` to both `Width` and `Height`. -/
def decodeBlobImageAttachment (raw : Json) : Except Unit ImageAttachment := do
  let m ← asObjFields raw
  let tn ← strField m "__typename"
  let preview ← imageFieldOf m "preview"
  let largePreview ← imageFieldOf m "large_preview"
  let animatedImage ← imageFieldOf m "animated_image"
  let thumbnail ← imageFieldOf m "thumbnail"
  let fbid ← strField m "legacy_attachment_id"
  let origDims ← objField m "original_dimensions"
  let od ← asObjFields origDims
  let x ← intField od "x"
  let _y ← intField od "y"
  if tn = blobImageAttachmentType ∨ tn = blobAnimatedImageAttachmentType then
    let lp := if animatedImage.uri ≠ "" then animatedImage else largePreview
    .ok ⟨canonicalFBID (.str fbid), x, x,
      tn = blobAnimatedImageAttachmentType,
      preview.uri, preview.width, preview.height,
      lp.uri, lp.width, lp.height,
      thumbnail.uri, lp.uri⟩
  else
    .error ()

/-- Model of `decodeThreadStickerAttachment`. -/
def decodeThreadStickerAttachment (raw : Json) : Except Unit StickerAttachment := do
  let m ← asObjFields raw
  let stickerID ← strIntField m "id"
  let pack ← objField m "pack"
  let packM ← asObjFields pack
  let packID ← strIntField packM "id"
  let url ← strField m "url"
  let frameCount ← intField m "frame_count"
  let frameRate ← intField m "frame_rate"
  let framesPerRow ← intField m "frames_per_row"
  let framesPerCol ← intField m "frames_per_column"
  let width ← intField m "width"
  let height ← intField m "height"
  let spriteImage ← uriFieldOf m "sprite_image"
  let spriteImage2x ← uriFieldOf m "sprite_image_2x"
  let paddedSpriteImage ← uriFieldOf m "padded_sprite_image"
  let paddedSpriteImage2x ← uriFieldOf m "padded_sprite_image_2x"
  .ok ⟨url, stickerID, packID, spriteImage, spriteImage2x,
    paddedSpriteImage, paddedSpriteImage2x,
    frameCount, frameRate, framesPerRow, framesPerCol, width, height⟩

/-- Model of `decodeStickerAttachment` (inline envelope). -/
def decodeStickerAttachment (raw : RawMap) : Except Unit StickerAttachment := do
  let mercury ← objField raw "mercury"
  let m ← asObjFields mercury
  let attachType ← strField m "attach_type"
  let att ← objField m "sticker_attachment"
  if attachType = StickerAttachmentType then
    decodeThreadStickerAttachment att
  else
    .error ()

/-- Model of `decodeFileAttachment` (inline envelope). -/
def decodeFileAttachment (raw : RawMap) : Except Unit FileAttachment := do
  let mercury ← objField raw "mercury"
  let m ← asObjFields mercury
  let attachType ← strField m "attach_type"
  let name ← strField m "name"
  let url ← strField m "url"
  if attachType = FileAttachmentType then
    .ok ⟨name, url⟩
  else
    .error ()

/-- Model of `decodeBlobFileAttachment`. -/
def decodeBlobFileAttachment (raw : Json) : Except Unit FileAttachment := do
  let m ← asObjFields raw
  let tn ← strField m "__typename"
  let name ← strField m "filename"
  let url ← strField m "url"
  if tn = blobFileAttachmentType then
    .ok ⟨name, url⟩
  else
    .error ()

/-- Model of `decodeVideoAttachment` (inline envelope). -/
def decodeVideoAttachment (raw : RawMap) : Except Unit VideoAttachment := do
  let mercury ← objField raw "mercury"
  let m ← asObjFields mercury
  let attachType ← strField m "attach_type"
  let name ← strField m "name"
  let url ← strField m "url"
  let meta ← objField m "metadata"
  let metaM ← asObjFields meta
  let fbid ← strField metaM "fbid"
  let dims ← objField metaM "dimensions"
  let dimsM ← asObjFields dims
  let w ← intField dimsM "width"
  let h ← intField dimsM "height"
  let previewURL ← strField m "preview_url"
  let previewWidth ← intField m "preview_width"
  let previewHeight ← intField m "preview_height"
  let largePreviewURL ← strField m "large_preview_url"
  let largePreviewWidth ← intField m "large_preview_width"
  let largePreviewHeight ← intField m "large_preview_height"
  let thumbnailURL ← strField m "thumbnail_url"
  if attachType = VideoAttachmentType then
    .ok ⟨fbid, name, url, w, h,
      previewURL, previewWidth, previewHeight,
      largePreviewURL, largePreviewWidth, largePreviewHeight,
      thumbnailURL⟩
  else
    .error ()

/-- Model of `decodeBlobVideoAttachment`. -/
def decodeBlobVideoAttachment (raw : Json) : Except Unit VideoAttachment := do
  let m ← asObjFields raw
  let tn ← strField m "__typename"
  let name ← strField m "filename"
  let url ← strField m "playable_url"
  let chatImage ← imageFieldOf m "chat_image"
  let largeImage ← imageFieldOf m "large_image"
  let _inboxImage ← imageFieldOf m "inbox_image"
  let fbid ← strField m "legacy_attachment_id"
  let origDims ← objField m "original_dimensions"
  let od ← asObjFields origDims
  let x ← intField od "x"
  let y ← intField od "y"
  if tn = blobVideoAttachmentType then
    .ok ⟨fbid, name, url, x, y,
      chatImage.uri, chatImage.width, chatImage.height,
      largeImage.uri, largeImage.width, largeImage.height,
      chatImage.uri⟩
  else
    .error ()

/-- Model of the canonicalization at the top of `decodeAttachment`: when the
payload has no "mercury" key it is replaced by a fresh single-key object
wrapping the original payload under "mercury". -/
def wrapRaw (raw : RawMap) : RawMap :=
  if hasKey raw "mercury" then raw else [("mercury", Json.obj raw)]

/-- Model of the fallback type extraction in `decodeAttachment`
(`typeObj.Mercury.AttachType`, with the unmarshal error ignored so a failed
extraction leaves the zero value ""). -/
def unknownAttachTypeOf (raw : RawMap) : String :=
  match objField raw "mercury" with
  | .error _ => ""
  | .ok j =>
    match asObjFields j with
    | .error _ => ""
    | .ok m =>
      match strField m "attach_type" with
      | .ok s => s
      | .error _ => ""

/-- Model of `decodeAttachment`: ordered trial of the five inline decoders,
falling back to `UnknownAttachment` retaining the (canonicalized) raw
payload. -/
def decodeAttachment (raw0 : RawMap) : Attachment :=
  let raw := wrapRaw raw0
  match decodeAudioAttachment raw with
  | .ok a => .audioAtt a
  | .error _ =>
    match decodeImageAttachment raw with
    | .ok i => .imageAtt i
    | .error _ =>
      match decodeStickerAttachment raw with
      | .ok s => .stickerAtt s
      | .error _ =>
        match decodeFileAttachment raw with
        | .ok f => .fileAtt f
        | .error _ =>
          match decodeVideoAttachment raw with
          | .ok v => .videoAtt v
          | .error _ => .unknownAtt ⟨unknownAttachTypeOf raw, raw⟩

/-- Model of the fallback type extraction in `decodeBlobAttachment`
(`typeObj.TypeName`, error ignored). -/
def blobTypeNameOf (raw : RawMap) : String :=
  match strField raw "__typename" with
  | .ok s => s
  | .error _ => ""

/-- Model of `decodeBlobAttachment`: ordered trial of the four blob
decoders, falling back to `UnknownAttachment`. -/
def decodeBlobAttachment (raw : RawMap) : Attachment :=
  match decodeBlobAudioAttachment (.obj raw) with
  | .ok a => .audioAtt a
  | .error _ =>
    match decodeBlobImageAttachment (.obj raw) with
    | .ok i => .imageAtt i
    | .error _ =>
      match decodeBlobFileAttachment (.obj raw) with
      | .ok f => .fileAtt f
      | .error _ =>
        match decodeBlobVideoAttachment (.obj raw) with
        | .ok v => .videoAtt v
        | .error _ => .unknownAtt ⟨blobTypeNameOf raw, raw⟩

/-! ### EventStream polling (event stream source file)

The poll worker is a loop of blocking network calls. We model one run of
`EventStream.poll` as a pure function of its external stimuli: the result of
the `callReconnect` handshake, the result of the `fetchPollingInfo`
discovery request, and then, for each loop iteration, whether the
cancellation context was observed as done at the two `checkClosed` points,
whether the transport call failed, and the parsed shape of the response
body. Wall-clock time (the `idle` parameter) and the literal query
parameters do not affect the modelled control flow. -/

/-- Model of `pollErrTimeout` (5 seconds): the fixed retry delay. -/
def pollErrTimeoutSeconds : Nat := 5

/-- A message frame inside a poll response (`ms` entry): a raw JSON
object handed to `dispatchMessages`. -/
abbrev Frame := RawMap

/-- One independently decodable JSON object of a poll response body, as
consumed by `parseMessages`: either a well-formed object with its type tag
`t`, sequence number `seq` and frame list `ms`, or a malformed token on
which `json.Decoder.Decode` fails. -/
inductive PollTok where
  | okTok : String → Int → List Frame → PollTok
  | badTok : PollTok

/-- Recursion of `parseMessages` over the response body, carrying the
accumulated frame list and running maximum sequence number. On a decode
error the Go function returns `nil, 0, err`, discarding both accumulators. -/
def parseMessagesAux (acc : List Frame) (ns : Int) :
    List PollTok → List Frame × Int × Bool
  | [] => (acc, ns, false)
  | .badTok :: _ => ([], 0, true)
  | .okTok t s ms :: rest =>
    parseMessagesAux (if t = "msg" then acc ++ ms else acc)
      (if s > ns then s else ns) rest

/-- Model of `parseMessages`: returns the collected "msg" frames, the
maximum embedded `seq` (at least 0), and an error flag. -/
def parseMessages (toks : List PollTok) : List Frame × Int × Bool :=
  parseMessagesAux [] 0 toks

/-- Model of the sequence-number update in `EventStream.poll`:
`if newSeq > 0 { seq = newSeq }`. -/
def seqUpdate (seq newSeq : Int) : Int :=
  if newSeq > 0 then newSeq else seq

/-- External stimuli of one iteration of the polling loop: the values of the
two `checkClosed` observations and the outcome of the network call. -/
structure PollIter where
  closedAtHead : Bool
  transportErr : Bool
  body : List PollTok
  closedAfterCall : Bool

/-- What one loop iteration does, as determined by `EventStream.poll`:
stop the loop (closed observed at the head or right after the call), sleep
`pollErrTimeout` and retry (transport or parse failure), or dispatch the
parsed frames; in the last two cases the tracked sequence number after the
iteration is recorded. -/
inductive StepRes where
  | haltAtHead : StepRes
  | haltAfterCall : StepRes
  | stepFail : Int → StepRes
  | stepOk : Int → List Frame → StepRes

/-- Model of one iteration of the loop body of `EventStream.poll`. The
sequence number is updated from the parse result before the parse error is
examined, exactly as in the source (on a parse error `parseMessages`
returns 0, so the update leaves it unchanged). -/
def pollStep (seq : Int) (it : PollIter) : StepRes :=
  if it.closedAtHead then .haltAtHead
  else if it.closedAfterCall then .haltAfterCall
  else if it.transportErr then .stepFail seq
  else
    let r := parseMessages it.body
    let seq2 := seqUpdate seq r.2.1
    if r.2.2 then .stepFail seq2 else .stepOk seq2 r.1

/-- Observable outcome of running the polling loop over a finite list of
iteration stimuli: poll requests issued, `pollErrTimeout` sleeps taken,
frame batches handed to `dispatchMessages`, the tracked sequence number
after each completed iteration, the final sequence number, and whether the
loop returned (which triggers the deferred close of the event channel). -/
structure LoopOutcome where
  requests : Nat
  sleeps : Nat
  dispatched : List (List Frame)
  seqTrace : List Int
  finSeq : Int
  finished : Bool

/-- Model of the polling loop of `EventStream.poll`, starting from tracked
sequence number `seq` (0 on entry in the source). -/
def pollLoop (seq : Int) : List PollIter → LoopOutcome
  | [] => ⟨0, 0, [], [], seq, false⟩
  | it :: rest =>
    match pollStep seq it with
    | .haltAtHead => ⟨0, 0, [], [], seq, true⟩
    | .haltAfterCall => ⟨1, 0, [], [], seq, true⟩
    | .stepFail s2 =>
      let o := pollLoop s2 rest
      ⟨o.requests + 1, o.sleeps + 1, o.dispatched, s2 :: o.seqTrace, o.finSeq, o.finished⟩
    | .stepOk s2 msgs =>
      let o := pollLoop s2 rest
      ⟨o.requests + 1, o.sleeps, msgs :: o.dispatched, s2 :: o.seqTrace, o.finSeq, o.finished⟩

/-- Observable outcome of a full run of `EventStream.poll`: how many times
each initialization request was issued, the loop outcome fields, the error
recorded via `pollFailed` (surfaced by `Error()`), and whether the event
channel was closed (the deferred `close(e.evtChan)` runs when `poll`
returns). -/
structure PollOutcome where
  reconnectCalls : Nat
  infoCalls : Nat
  requests : Nat
  sleeps : Nat
  dispatched : List (List Frame)
  seqTrace : List Int
  errRecorded : Option String
  chanClosed : Bool

/-- Model of `EventStream.poll`: the reconnect handshake, then the sticky
pool/token discovery, then the polling loop with the sequence number
starting at 0. A reconnect failure is recorded with the "reconnect: "
context string, exactly as in the source. -/
def pollModel (reconnect : Except String String)
    (info : Except String (String × String))
    (iters : List PollIter) : PollOutcome :=
  match reconnect with
  | .error msg => ⟨1, 0, 0, 0, [], [], some ("reconnect: " ++ msg), true⟩
  | .ok _ =>
    match info with
    | .error msg => ⟨1, 1, 0, 0, [], [], some msg, true⟩
    | .ok _ =>
      let o := pollLoop 0 iters
      ⟨1, 1, o.requests, o.sleeps, o.dispatched, o.seqTrace, none, o.finished⟩

/-- Model of the blocking behaviour of the `select` in
`EventStream.emitEvent`: the emit blocks exactly when the event channel
cannot accept the value and the stream's context is not done. -/
def emitWouldBlock (ctxDone chanReady : Bool) : Bool :=
  !chanReady && !ctxDone

/-- Mutable state of an `EventStream` relevant to `Close()` and `Error()`:
the recorded error, the closed flag, and whether the cancellation function
of the stream's context has been invoked. -/
structure StreamState where
  err : Option String
  closed : Bool
  cancelled : Bool

/-- Model of `EventStream.Close` (the body runs under the stream's lock):
a no-op returning nil when already closed, otherwise it sets the closed
flag, cancels the context, and returns nil. -/
def closeStream (s : StreamState) : StreamState × Option String :=
  if s.closed then (s, none)
  else (⟨s.err, true, true⟩, none)

/-- Error results of `Session.ReadEvent`: `io.EOF` for a clean close, or
the stream's recorded error. -/
inductive ReadEventError where
  | eof : ReadEventError
  | streamFailure : String → ReadEventError
deriving DecidableEq

/-- Model of the tail of `Session.ReadEvent`: `recv` is the result of
receiving from the default stream's channel (`none` when the channel is
closed), `streamErr` is the stream's recorded error. Returns the event/error
pair handed to the caller. -/
def readEvent {α : Type} (recv : Option α) (streamErr : Option String) :
    Option α × Option ReadEventError :=
  match recv with
  | some evt => (some evt, none)
  | none =>
    match streamErr with
    | some msg => (none, some (.streamFailure msg))
    | none => (none, some .eof)

/-! ### FullActionLog pagination (util.go)

`Session.FullActionLog` repeatedly calls `ActionLog` with page size
`actionBufferSize`, trims the overlap record, and streams the page to the
consumer. We model one run with a nil cancel channel (no cancellation) as a
pure function of the successive pages returned by `ActionLog`; the loop
variable `offset` accumulates the trimmed page lengths and the cursor
`lastTime` only influences which page the backend returns, which is already
abstracted by the page list. -/

/-- Model of `actionBufferSize`: the page size requested from
`ActionLog`. -/
def actionBufferSize : Nat := 500

/-- Model of the fetch loop of `Session.FullActionLog` from a given
`offset`: for each fetched page, when `offset > 0` and the page is
non-empty, drop its final record ("Remove the one overlapping action");
stop when the trimmed page is empty; otherwise deliver the trimmed page in
reverse index order and continue. Returns the delivered records, the number
of `ActionLog` fetches issued, and whether the loop terminated within the
supplied pages. -/
def fullActionLogRun {α : Type} (offset : Nat) :
    List (List α) → List α × Nat × Bool
  | [] => ([], 0, false)
  | listing :: rest =>
    let trimmed :=
      if 0 < offset ∧ 0 < listing.length then listing.dropLast else listing
    if trimmed.length = 0 then ([], 1, true)
    else
      let r := fullActionLogRun (offset + trimmed.length) rest
      (trimmed.reverse ++ r.1, r.2.1 + 1, r.2.2)

/-- Model of `Session.FullActionLog` (nil cancel channel): the fetch loop
starting with `offset = 0`. -/
def fullActionLog {α : Type} (pages : List (List α)) : List α × Nat × Bool :=
  fullActionLogRun 0 pages

/-! ### Concrete inputs used by individual claims -/

/-- Five successfully parsed poll responses whose embedded sequence numbers
are 3, 1, 5, 5, 7 — the scenario named by the specification. -/
def c1Iters : List PollIter :=
  [⟨false, false, [.okTok "msg" 3 []], false⟩,
   ⟨false, false, [.okTok "msg" 1 []], false⟩,
   ⟨false, false, [.okTok "msg" 5 []], false⟩,
   ⟨false, false, [.okTok "msg" 5 []], false⟩,
   ⟨false, false, [.okTok "msg" 7 []], false⟩]

/-- A successful response carrying seq 3, then a transport failure, then a
successful response carrying seq 1. -/
def c7Iters : List PollIter :=
  [⟨false, false, [.okTok "msg" 3 []], false⟩,
   ⟨false, true, [], false⟩,
   ⟨false, false, [.okTok "msg" 1 []], false⟩]

/-- A blob image payload with type tag "MessageImage" and
`original_dimensions` x = 100, y = 50. -/
def c4FailingInput : Json :=
  .obj [("__typename", .str "MessageImage"),
        ("original_dimensions", .obj [("x", .int 100), ("y", .int 50)])]

/-! ### Helper lemmas -/

/-- When `parseMessages` reports a decode error it also reports a maximum
sequence number of 0 (the Go function returns `nil, 0, err`). -/
theorem parseMessagesAux_err (toks : List PollTok) : ∀ (acc : List Frame) (ns : Int),
    (parseMessagesAux acc ns toks).2.2 = true → (parseMessagesAux acc ns toks).2.1 = 0 := by
  induction toks with
  | nil => intro acc ns h; simp [parseMessagesAux] at h
  | cons t rest ih =>
    intro acc ns h
    cases t with
    | badTok => rfl
    | okTok ty s ms => exact ih _ _ h

/-- A run of the polling loop in which neither `checkClosed` observation
ever fires does not return, hence does not close the event channel. -/
theorem pollLoop_not_finished (iters : List PollIter) : ∀ seq : Int,
    (∀ it ∈ iters, it.closedAtHead = false ∧ it.closedAfterCall = false) →
    (pollLoop seq iters).finished = false := by
  induction iters with
  | nil => intro seq _; rfl
  | cons it rest ih =>
    intro seq hall
    obtain ⟨h1, h2⟩ := hall it (List.mem_cons_self it rest)
    have hrest := fun x hx => hall x (List.mem_cons_of_mem it hx)
    simp only [pollLoop, pollStep, h1, h2, Bool.false_eq_true, if_false]
    cases ht : it.transportErr
    · simp only [Bool.false_eq_true, if_false]
      cases hp : (parseMessages it.body).2.2 <;> simp [ih _ hrest]
    · simp [ih _ hrest]

/-- A run of the polling loop containing an iteration at which a
`checkClosed` observation fires terminates the loop. -/
theorem pollLoop_finished_of_closed (iters : List PollIter) : ∀ seq : Int,
    (∃ it ∈ iters, it.closedAtHead = true ∨ it.closedAfterCall = true) →
    (pollLoop seq iters).finished = true := by
  induction iters with
  | nil => intro seq h; simp at h
  | cons it rest ih =>
    intro seq h
    rcases h with ⟨x, hx, hflag⟩
    rcases List.mem_cons.mp hx with rfl | hxr
    · cases hflag with
      | inl h1 => simp [pollLoop, pollStep, h1]
      | inr h2 =>
        cases hc : x.closedAtHead
        · simp [pollLoop, pollStep, hc, h2]
        · simp [pollLoop, pollStep, hc]
    · cases hstep : pollStep seq it with
      | haltAtHead => simp [pollLoop, hstep]
      | haltAfterCall => simp [pollLoop, hstep]
      | stepFail s2 => simpa [pollLoop, hstep] using ih s2 ⟨x, hxr, hflag⟩
      | stepOk s2 msgs => simpa [pollLoop, hstep] using ih s2 ⟨x, hxr, hflag⟩

/-- The fetch loop always issues at least one fetch per page list it
enters. -/
theorem fullActionLogRun_cons_fetch {α : Type} (offset : Nat) (q : List α)
    (rest : List (List α)) : 1 ≤ (fullActionLogRun offset (q :: rest)).2.1 := by
  simp only [fullActionLogRun]
  split <;> split <;> simp

/-- From a positive offset onwards (every page after the first), the fetch
loop delivers exactly each page minus its final record, reversed, as long as
no trimmed page is empty. -/
theorem fullActionLogRun_drop {α : Type} (rest : List (List α)) : ∀ (offset : Nat),
    0 < offset → (∀ q ∈ rest, q.dropLast ≠ []) →
    (fullActionLogRun offset rest).1
      = (rest.map (fun q => q.dropLast.reverse)).flatten := by
  induction rest with
  | nil => intro offset _ _; rfl
  | cons q rest ih =>
    intro offset hoff hq
    have hqd : q.dropLast ≠ [] := hq q (List.mem_cons_self q rest)
    have hlen : 0 < q.length := by
      rcases q with _ | ⟨a, t⟩
      · exact absurd rfl hqd
      · simp
    have htrim : ¬ q.dropLast.length = 0 := by
      simpa only [List.length_eq_zero] using hqd
    simp only [fullActionLogRun]
    rw [if_pos (And.intro hoff hlen), if_neg htrim]
    simp only [List.map_cons, List.flatten_cons]
    rw [ih (offset + q.dropLast.length)
      (Nat.lt_of_lt_of_le hoff (Nat.le_add_right offset _))
      (fun x hx => hq x (List.mem_cons_of_mem q hx))]

/-! ### Claim theorems -/

/-- C1 counterexample: the tracked sequence number of a stream is NOT
non-decreasing. For the specification's own scenario — five successfully
parsed poll responses with embedded sequence numbers 3, 1, 5, 5, 7 — the
tracked values after each response are 3, 1, 5, 5, 7, not the claimed
3, 3, 5, 5, 7: the source overwrites `seq` with any positive incoming
maximum, even a lower one. -/
theorem c1_counterexample :
    (pollModel (.ok "h") (.ok ("p", "t")) c1Iters).seqTrace = [3, 1, 5, 5, 7]
    ∧ [3, 1, 5, 5, 7] ≠ ([3, 3, 5, 5, 7] : List Int) := by decide

/-- C1 amended: after a successfully issued poll response the tracked
sequence number becomes `seqUpdate seq newSeq` — the response's maximum
embedded sequence number whenever it is positive (even when lower than the
current value), and the previous value otherwise; on the [3,1,5,5,7]
scenario the tracked values are therefore 3, 1, 5, 5, 7. -/
theorem c1_amended :
    (∀ (seq : Int) (toks : List PollTok) (rest : List PollIter),
      (pollLoop seq (⟨false, false, toks, false⟩ :: rest)).seqTrace.head?
        = some (seqUpdate seq (parseMessages toks).2.1))
    ∧ (pollModel (.ok "h") (.ok ("p", "t")) c1Iters).seqTrace = [3, 1, 5, 5, 7] := by
  constructor
  · intro seq toks rest
    simp only [pollLoop, pollStep]
    cases hp : (parseMessages toks).2.2 <;> simp [hp]
  · decide

/-- C2 counterexample: for the page sequence [[0,1],[2,3]] the loop keeps
the leading record 2 of the second page and drops its trailing record 3 —
the opposite of the claim, which says the leading (first-position) record
is dropped and every remaining record (hence 3) delivered. -/
theorem c2_counterexample :
    (fullActionLog [[0, 1], [2, 3]]).1 = [1, 0, 2]
    ∧ (2 : ℕ) ∈ (fullActionLog [[0, 1], [2, 3]]).1
    ∧ (3 : ℕ) ∉ (fullActionLog [[0, 1], [2, 3]]).1 := by decide

/-- C2 amended: for every fetched page after the first, exactly the single
trailing (last-position) record of the new page is dropped (pages arrive
oldest-first, so the trailing record is the one duplicating the prior
page's oldest record); no record of the first page is dropped, and every
remaining record is delivered, each page in reverse index order. -/
theorem c2_amended {α : Type} (p : List α) (rest : List (List α))
    (hp : p ≠ []) (hr : ∀ q ∈ rest, q.dropLast ≠ []) :
    (fullActionLog (p :: rest)).1
      = p.reverse ++ (rest.map (fun q => q.dropLast.reverse)).flatten := by
  have hlen : ¬ p.length = 0 := by simpa [List.length_eq_zero] using hp
  unfold fullActionLog
  simp only [fullActionLogRun]
  rw [if_neg (by simp : ¬ (0 < 0 ∧ 0 < p.length)), if_neg hlen]
  simp only [Nat.zero_add]
  rw [fullActionLogRun_drop rest p.length (Nat.pos_of_ne_zero hlen) hr]

/-- C2 witness: the amended statement evaluated on the concrete pages
[[0,1],[2,3]]. -/
theorem c2_amended_witness :
    (([0, 1] : List ℕ) ≠ [] ∧ ∀ q ∈ ([[2, 3]] : List (List ℕ)), q.dropLast ≠ [])
    ∧ (fullActionLog [[0, 1], [2, 3]]).1
        = ([0, 1] : List ℕ).reverse
          ++ (([[2, 3]] : List (List ℕ)).map (fun q => q.dropLast.reverse)).flatten :=
  ⟨⟨by decide, by decide⟩, c2_amended [0, 1] [[2, 3]] (by decide) (by decide)⟩

/-- C3 counterexample: for the empty payload (which matches no known
attachment shape) `decodeAttachment` retains a wrapped object
`{"mercury": {}}` as the unknown attachment's raw data, which is not
structurally equal to the original input `{}`. -/
theorem c3_counterexample :
    decodeAttachment [] = .unknownAtt ⟨"", [("mercury", Json.obj [])]⟩
    ∧ ([("mercury", Json.obj [])] : RawMap) ≠ [] :=
  ⟨rfl, by simp⟩

/-- C3 amended: for every payload on which no known attachment shape
matches, `decodeAttachment` returns an unknown attachment whose retained
raw data equals the canonicalized payload `wrapRaw raw`: the input itself
when it already has a "mercury" key, and otherwise the input preserved
unchanged beneath a fresh single "mercury" key. -/
theorem c3_amended (raw : RawMap)
    (h1 : decodeAudioAttachment (wrapRaw raw) = .error ())
    (h2 : decodeImageAttachment (wrapRaw raw) = .error ())
    (h3 : decodeStickerAttachment (wrapRaw raw) = .error ())
    (h4 : decodeFileAttachment (wrapRaw raw) = .error ())
    (h5 : decodeVideoAttachment (wrapRaw raw) = .error ()) :
    decodeAttachment raw = .unknownAtt ⟨unknownAttachTypeOf (wrapRaw raw), wrapRaw raw⟩
    ∧ (hasKey raw "mercury" = true → wrapRaw raw = raw)
    ∧ (hasKey raw "mercury" = false → wrapRaw raw = [("mercury", Json.obj raw)]) := by
  refine ⟨?_, ?_, ?_⟩
  · simp only [decodeAttachment, h1, h2, h3, h4, h5]
  · intro h; simp [wrapRaw, h]
  · intro h; simp [wrapRaw, h]

/-- C3 witness: the amended statement evaluated on the empty payload, on
which every known decoder fails. -/
theorem c3_amended_witness :
    decodeAudioAttachment (wrapRaw []) = .error ()
    ∧ decodeImageAttachment (wrapRaw []) = .error ()
    ∧ decodeStickerAttachment (wrapRaw []) = .error ()
    ∧ decodeFileAttachment (wrapRaw []) = .error ()
    ∧ decodeVideoAttachment (wrapRaw []) = .error ()
    ∧ decodeAttachment []
        = .unknownAtt ⟨unknownAttachTypeOf (wrapRaw []), wrapRaw []⟩ :=
  ⟨rfl, rfl, rfl, rfl, rfl, (c3_amended [] rfl rfl rfl rfl rfl).1⟩

/-- C4: on a blob image payload with original_dimensions x = 100, y = 50,
`decodeBlobImageAttachment` produces Width = 100 but also Height = 100
(the x value), not Height = 50 as the claim (and clearly the intent — the
parallel blob video decoder uses y) requires: the source assigns
`OrigDimensions.X` to the `Height` field. -/
theorem c4_blob_image_height :
    decodeBlobImageAttachment c4FailingInput
      = .ok ⟨"", 100, 100, false, "", 0, 0, "", 0, 0, "", ""⟩
    ∧ (⟨"", 100, 100, false, "", 0, 0, "", 0, 0, "", ""⟩ : ImageAttachment).height = 100
    ∧ ¬ (⟨"", 100, 100, false, "", 0, 0, "", 0, 0, "", ""⟩ : ImageAttachment).height = 50 :=
  ⟨rfl, rfl, by decide⟩

/-- C5 counterexample: after the first fetched page [5] — shorter than the
requested page size `actionBufferSize` — is delivered, the loop still
issues a further fetch: the run over pages [[5],[6,7]] issues 2 fetches,
not the single fetch the claim requires. -/
theorem c5_counterexample :
    ([5] : List ℕ).length < actionBufferSize
    ∧ (fullActionLog [[5], [6, 7]]).2.1 = 2
    ∧ (fullActionLog [[5], [6, 7]]).2.1 ≠ 1 := by decide

/-- C5 amended: the fetch loop terminates exactly when a fetched page is
empty after overlap trimming — an empty first page, or any later page with
at most one record; a page that is merely shorter than `actionBufferSize`
but non-empty after trimming does not end the loop, and a further fetch is
issued after it. -/
theorem c5_amended :
    (∀ rest : List (List ℕ), fullActionLog ([] :: rest) = ([], 1, true))
    ∧ (∀ (offset : Nat) (q : List ℕ) (rest : List (List ℕ)),
        0 < offset → q.length ≤ 1 →
        fullActionLogRun offset (q :: rest) = ([], 1, true))
    ∧ (∀ (p : List ℕ) (rest : List (List ℕ)),
        p ≠ [] → p.length < actionBufferSize → rest ≠ [] →
        2 ≤ (fullActionLog (p :: rest)).2.1) := by
  refine ⟨fun rest => rfl, ?_, ?_⟩
  · intro offset q rest hoff hq
    rcases q with _ | ⟨a, t⟩
    · simp [fullActionLogRun]
    · rcases t with _ | ⟨b, t⟩
      · simp [fullActionLogRun, hoff]
      · simp at hq
  · intro p rest hp hshort hrest
    rcases rest with _ | ⟨q, rest⟩
    · exact absurd rfl hrest
    · have hlen : ¬ p.length = 0 := by simpa [List.length_eq_zero] using hp
      have h1 := fullActionLogRun_cons_fetch (0 + p.length) q rest
      unfold fullActionLog
      simp only [fullActionLogRun]
      rw [if_neg (by simp : ¬ (0 < 0 ∧ 0 < p.length)), if_neg hlen]
      show 2 ≤ (fullActionLogRun (0 + p.length) (q :: rest)).2.1 + 1
      omega

/-- C5 witness: the amended statement evaluated on concrete page lists. -/
theorem c5_amended_witness :
    fullActionLog (([] : List ℕ) :: [[9]]) = ([], 1, true)
    ∧ (0 < 3 ∧ ([7] : List ℕ).length ≤ 1)
    ∧ fullActionLogRun 3 [([7] : List ℕ), [8, 9]] = ([], 1, true)
    ∧ (([5] : List ℕ) ≠ [] ∧ ([5] : List ℕ).length < actionBufferSize
        ∧ ([[6, 7]] : List (List ℕ)) ≠ [])
    ∧ 2 ≤ (fullActionLog [[5], [6, 7]]).2.1 :=
  ⟨c5_amended.1 [[9]], ⟨by decide, by decide⟩,
   c5_amended.2.1 3 [7] [[8, 9]] (by decide) (by decide),
   ⟨by decide, by decide, by decide⟩,
   c5_amended.2.2 [5] [[6, 7]] (by decide) (by decide) (by decide)⟩

/-- C6: if the reconnect handshake fails, or the sticky pool/token
discovery fails, the stream fails immediately and permanently: each
initialization request is issued at most once (no retry), no streaming
poll request is ever issued, the failure is recorded (surfaced by
`Error()`, with the reconnect failure wrapped in a "reconnect: " context),
and the event channel is closed. -/
theorem c6_init_failure :
    (∀ (msg : String) (info : Except String (String × String)) (iters : List PollIter),
      pollModel (.error msg) info iters
        = ⟨1, 0, 0, 0, [], [], some ("reconnect: " ++ msg), true⟩)
    ∧ (∀ (host msg : String) (iters : List PollIter),
      pollModel (.ok host) (.error msg) iters
        = ⟨1, 1, 0, 0, [], [], some msg, true⟩) :=
  ⟨fun _ _ _ => rfl, fun _ _ _ => rfl⟩

/-- C7 counterexample: a success carrying seq 3, a transport failure, then
a success carrying seq 1 leaves the channel open and no error recorded, but
the dispatch after the failure resumes with tracked sequence number 1,
strictly lower than its previous value 3 — refuting the claim's "resumes
dispatch with the sequence number no lower than its previous value". -/
theorem c7_counterexample :
    (pollModel (.ok "h") (.ok ("p", "t")) c7Iters).chanClosed = false
    ∧ (pollModel (.ok "h") (.ok ("p", "t")) c7Iters).errRecorded = none
    ∧ (pollModel (.ok "h") (.ok ("p", "t")) c7Iters).seqTrace = [3, 3, 1]
    ∧ ¬ (3 : Int) ≤ 1 := by decide

/-- C7 amended: a transport failure sleeps the fixed delay and retries with
the tracked sequence number unchanged; a parse failure likewise leaves the
sequence number unchanged (the parser reports 0 on error); and a run whose
`checkClosed` observations never fire neither closes the event channel nor
records an error. However, the first success after a failure sets the
sequence number to that response's positive maximum, which may be lower
than the value before the failure. -/
theorem c7_amended :
    (∀ (seq : Int) (b : List PollTok) (rest : List PollIter),
      pollLoop seq (⟨false, true, b, false⟩ :: rest)
        = ⟨(pollLoop seq rest).requests + 1, (pollLoop seq rest).sleeps + 1,
           (pollLoop seq rest).dispatched, seq :: (pollLoop seq rest).seqTrace,
           (pollLoop seq rest).finSeq, (pollLoop seq rest).finished⟩)
    ∧ (∀ (seq : Int) (toks : List PollTok), (parseMessages toks).2.2 = true →
      pollStep seq ⟨false, false, toks, false⟩ = .stepFail seq)
    ∧ (∀ (host pool token : String) (iters : List PollIter),
      (∀ it ∈ iters, it.closedAtHead = false ∧ it.closedAfterCall = false) →
      (pollModel (.ok host) (.ok (pool, token)) iters).chanClosed = false
      ∧ (pollModel (.ok host) (.ok (pool, token)) iters).errRecorded = none) := by
  refine ⟨fun seq b rest => rfl, ?_, ?_⟩
  · intro seq toks h
    have h0 : (parseMessages toks).2.1 = 0 := parseMessagesAux_err toks [] 0 h
    simp [pollStep, h, h0, seqUpdate]
  · intro host pool token iters hall
    exact ⟨by simp [pollModel, pollLoop_not_finished iters 0 hall], rfl⟩

/-- C7 witness: the amended statement evaluated on concrete stimuli — a
transport failure at seq 3, a malformed response at seq 3, and a one-step
run with no closed observation. -/
theorem c7_amended_witness :
    pollLoop 3 [⟨false, true, [], false⟩]
      = ⟨(pollLoop 3 []).requests + 1, (pollLoop 3 []).sleeps + 1,
         (pollLoop 3 []).dispatched, 3 :: (pollLoop 3 []).seqTrace,
         (pollLoop 3 []).finSeq, (pollLoop 3 []).finished⟩
    ∧ (parseMessages [PollTok.badTok]).2.2 = true
    ∧ pollStep 3 ⟨false, false, [PollTok.badTok], false⟩ = .stepFail 3
    ∧ (∀ it ∈ [(⟨false, true, [], false⟩ : PollIter)],
        it.closedAtHead = false ∧ it.closedAfterCall = false)
    ∧ (pollModel (.ok "h") (.ok ("p", "t")) [⟨false, true, [], false⟩]).chanClosed = false
    ∧ (pollModel (.ok "h") (.ok ("p", "t")) [⟨false, true, [], false⟩]).errRecorded = none := by
  have hall : ∀ it ∈ [(⟨false, true, [], false⟩ : PollIter)],
      it.closedAtHead = false ∧ it.closedAfterCall = false := by
    intro it hit
    rw [List.mem_singleton] at hit
    subst hit
    exact ⟨rfl, rfl⟩
  have h3 := c7_amended.2.2 "h" "p" "t" [⟨false, true, [], false⟩] hall
  exact ⟨c7_amended.1 3 [] [], rfl, c7_amended.2.1 3 [PollTok.badTok] rfl,
    hall, h3.1, h3.2⟩

/-- C8: cancellation is not a failure. For a stream whose initialization
succeeded, once a `checkClosed` observation fires (Close() cancels the
stream context, which both observations watch) the worker loop stops, the
event channel is closed, and no error is recorded (`Error()` stays nil);
the `select` in `emitEvent` cannot block once the context is done, so a
pending emit aborts rather than blocking; and `Close()` on an open stream
cancels the context, returns nil, and leaves the recorded error
untouched. -/
theorem c8_close_cancellation :
    (∀ (host pool token : String) (iters : List PollIter),
      (∃ it ∈ iters, it.closedAtHead = true ∨ it.closedAfterCall = true) →
      (pollModel (.ok host) (.ok (pool, token)) iters).chanClosed = true
      ∧ (pollModel (.ok host) (.ok (pool, token)) iters).errRecorded = none)
    ∧ (∀ chanReady : Bool, emitWouldBlock true chanReady = false)
    ∧ (∀ s : StreamState, s.closed = false →
      (closeStream s).2 = none ∧ (closeStream s).1.cancelled = true
      ∧ (closeStream s).1.err = s.err) := by
  refine ⟨?_, ?_, ?_⟩
  · intro host pool token iters hex
    exact ⟨by simp [pollModel, pollLoop_finished_of_closed iters 0 hex], rfl⟩
  · intro chanReady; simp [emitWouldBlock]
  · intro s hs; simp [closeStream, hs]

/-- C8 witness: the statement evaluated on a one-iteration run whose head
`checkClosed` observation fires, a full channel with the context done, and
an open stream state. -/
theorem c8_close_cancellation_witness :
    (∃ it ∈ [(⟨true, false, [], false⟩ : PollIter)],
      it.closedAtHead = true ∨ it.closedAfterCall = true)
    ∧ (pollModel (.ok "h") (.ok ("p", "t")) [⟨true, false, [], false⟩]).chanClosed = true
    ∧ (pollModel (.ok "h") (.ok ("p", "t")) [⟨true, false, [], false⟩]).errRecorded = none
    ∧ emitWouldBlock true false = false
    ∧ (⟨none, false, false⟩ : StreamState).closed = false
    ∧ (closeStream ⟨none, false, false⟩).1.cancelled = true := by
  have hex : ∃ it ∈ [(⟨true, false, [], false⟩ : PollIter)],
      it.closedAtHead = true ∨ it.closedAfterCall = true :=
    ⟨⟨true, false, [], false⟩, List.mem_singleton.mpr rfl, Or.inl rfl⟩
  have h1 := c8_close_cancellation.1 "h" "p" "t" [⟨true, false, [], false⟩] hex
  have h3 := c8_close_cancellation.2.2 ⟨none, false, false⟩ rfl
  exact ⟨hex, h1.1, h1.2, c8_close_cancellation.2.1 false, rfl, h3.2.1⟩

/-- C9: `Close()` is idempotent. On any stream state it returns nil, leaves
the closed flag set, never changes the recorded error (so `Error()` is
unchanged), and a repeated call is a no-op that again returns nil; since
the body runs under the stream's lock, two racing calls serialize into the
two sequential orders, both covered by this statement. -/
theorem c9_close_idempotent (s : StreamState) :
    (closeStream s).2 = none
    ∧ (closeStream s).1.closed = true
    ∧ (closeStream s).1.err = s.err
    ∧ closeStream (closeStream s).1 = ((closeStream s).1, none) := by
  by_cases h : s.closed = true
  · simp [closeStream, h]
  · simp [closeStream, h]

/-- C10: when the default stream's channel is closed, `Session.ReadEvent`
returns a nil event with a non-nil error: the stream's recorded error when
one exists, and `io.EOF` exactly when no error was recorded — so a consumer
distinguishes a clean close by receiving EOF. -/
theorem c10_read_event_closed :
    ∀ (α : Type) (e : Option String),
      (readEvent (none : Option α) e).1 = none
      ∧ ((readEvent (none : Option α) e).2).isSome = true
      ∧ ((readEvent (none : Option α) e).2 = some ReadEventError.eof ↔ e = none)
      ∧ ∀ msg : String,
        (readEvent (none : Option α) (some msg)).2
          = some (ReadEventError.streamFailure msg) := by
  intro α e
  refine ⟨?_, ?_, ?_, fun msg => rfl⟩ <;> cases e <;> simp [readEvent]

end Fbmsgr
